import Mathlib

/-!
Shallow embedding of the wamr-rust-sdk host-binding core
(`src/host_function.rs`, `src/instance.rs`) and proofs about it.

Bytes are modelled as `Nat` values (the `u8` contents of the Rust `Vec<u8>`
buffers), raw function pointers as `Nat`, and C strings as the byte list of
their contents (without the terminating NUL).  Pointer aliasing between a
`NativeSymbol` and the `CString` buffers it points into is modelled by value:
the symbol carries the same byte list as the entry field it points to.
-/

namespace Wamr

/-- `ParamTy` from `host_function.rs`: the closed enumeration of parameter
kinds accepted by the signature encoder. -/
inductive ParamTy
  | I32
  | I64
  | F32
  | F64
  | Str
  | Pointer
  | Buffer
deriving DecidableEq, Repr

/-- `ParamTy::encode(&self, str: &mut Vec<u8>)`: appends this parameter's
encoding to the byte buffer.  `b'i' = 105`, `b'I' = 73`, `b'f' = 102`,
`b'F' = 70`, `b'$' = 36`, `b'*' = 42`, `b'~' = 126`. -/
def ParamTy.encode : ParamTy → List Nat → List Nat
  | ParamTy.I32, str => str ++ [105]
  | ParamTy.I64, str => str ++ [73]
  | ParamTy.F32, str => str ++ [102]
  | ParamTy.F64, str => str ++ [70]
  | ParamTy.Str, str => str ++ [36]
  | ParamTy.Pointer, str => str ++ [42]
  | ParamTy.Buffer, str => str ++ [42, 126]

/-- `ResultTy` from `host_function.rs`: the closed enumeration of result
kinds. -/
inductive ResultTy
  | I32
  | I64
  | F32
  | F64
  | Void
deriving DecidableEq, Repr

/-- `ResultTy::encode(&self, str: &mut Vec<u8>)`: appends this result's
encoding to the byte buffer; `Void` appends nothing. -/
def ResultTy.encode : ResultTy → List Nat → List Nat
  | ResultTy.I32, str => str ++ [105]
  | ResultTy.I64, str => str ++ [73]
  | ResultTy.F32, str => str ++ [102]
  | ResultTy.F64, str => str ++ [70]
  | ResultTy.Void, str => str

/-- The parameter encoding table of spec section 4.1, written from the spec's
words, to be compared with the code's `ParamTy.encode`. -/
def paramTableSpec : ParamTy → List Nat
  | ParamTy.I32 => [105]
  | ParamTy.I64 => [73]
  | ParamTy.F32 => [102]
  | ParamTy.F64 => [70]
  | ParamTy.Str => [36]
  | ParamTy.Pointer => [42]
  | ParamTy.Buffer => [42, 126]

/-- The result encoding table of spec section 4.1, written from the spec's
words, to be compared with the code's `ResultTy.encode`. -/
def resultTableSpec : ResultTy → List Nat
  | ResultTy.I32 => [105]
  | ResultTy.I64 => [73]
  | ResultTy.F32 => [102]
  | ResultTy.F64 => [70]
  | ResultTy.Void => []

/-- The signature built by `register_host_function` (lines 82-86 of
`host_function.rs`): start from an empty buffer, encode each parameter in
declaration order, then encode the result. -/
def encodeSignature (params : List ParamTy) (result : ResultTy) : List Nat :=
  result.encode (params.foldl (fun sig p => p.encode sig) [])

lemma paramTy_encode_eq_table (p : ParamTy) (str : List Nat) :
    p.encode str = str ++ paramTableSpec p := by
  cases p <;> rfl

lemma resultTy_encode_eq_table (r : ResultTy) (str : List Nat) :
    r.encode str = str ++ resultTableSpec r := by
  cases r <;> simp [ResultTy.encode, resultTableSpec]

lemma foldl_encode_eq (params : List ParamTy) (acc : List Nat) :
    params.foldl (fun sig p => ParamTy.encode p sig) acc
      = acc ++ (params.map paramTableSpec).flatten := by
  induction params generalizing acc with
  | nil => simp
  | cons p ps ih =>
      simp only [List.foldl_cons]
      rw [paramTy_encode_eq_table, ih, List.map_cons, List.flatten_cons,
        List.append_assoc]

lemma encodeSignature_eq (params : List ParamTy) (result : ResultTy) :
    encodeSignature params result
      = (params.map paramTableSpec).flatten ++ resultTableSpec result := by
  unfold encodeSignature
  rw [resultTy_encode_eq_table, foldl_encode_eq, List.nil_append]

lemma paramTableSpec_mem (p : ParamTy) (b : Nat) (hb : b ∈ paramTableSpec p) :
    b ∈ [105, 73, 102, 70, 36, 42, 126] := by
  cases p <;> simp_all [paramTableSpec]

lemma resultTableSpec_mem (r : ResultTy) (b : Nat) (hb : b ∈ resultTableSpec r) :
    b ∈ [105, 73, 102, 70, 36, 42, 126] := by
  cases r <;> simp_all [resultTableSpec]

lemma encodeSignature_mem (params : List ParamTy) (result : ResultTy) (b : Nat)
    (hb : b ∈ encodeSignature params result) :
    b ∈ [105, 73, 102, 70, 36, 42, 126] := by
  rw [encodeSignature_eq] at hb
  rcases List.mem_append.mp hb with h | h
  · rcases List.mem_flatten.mp h with ⟨l, hl, hbl⟩
    rcases List.mem_map.mp hl with ⟨p, _, rfl⟩
    exact paramTableSpec_mem p b hbl
  · exact resultTableSpec_mem result b h

lemma encodeSignature_no_nul (params : List ParamTy) (result : ResultTy) :
    0 ∉ encodeSignature params result := by
  intro h
  have := encodeSignature_mem params result 0 h
  simp at this

/-- `CString::new(bytes)`: succeeds with the bytes unchanged when they contain
no interior NUL, otherwise fails (`Err(NulError)`, which `unwrap()` turns into
a panic, modelled as `none` propagating). -/
def CString.new (bytes : List Nat) : Option (List Nat) :=
  if 0 ∈ bytes then none else some bytes

/-- `HostFunction` from `host_function.rs`: one registered entry owning its
name and signature `CString` buffers. -/
structure HostFunction where
  function_name : List Nat
  function_ptr : Nat
  signature : List Nat
deriving DecidableEq, Repr

/-- `NativeSymbol` (the `wamr_sys` descriptor record filled by
`pack_host_function`).  `symbol` and `signature` model the
`as_ptr()` pointers into the owning entry's buffers by the buffer contents;
`attachment` is `none` for the null pointer. -/
structure NativeSymbol where
  symbol : List Nat
  func_ptr : Nat
  signature : List Nat
  attachment : Option Nat
deriving DecidableEq, Repr

/-- `HostFunctionList` from `host_function.rs`: module name plus the two
insertion-order-synchronized sequences. -/
structure HostFunctionList where
  module_name : List Nat
  host_functions : List HostFunction
  native_symbols : List NativeSymbol
deriving DecidableEq, Repr

/-- `pack_host_function(function_name, function_ptr, signature)`: builds the
native descriptor pointing at the given buffers, with a null attachment. -/
def pack_host_function (function_name : List Nat) (function_ptr : Nat)
    (signature : List Nat) : NativeSymbol :=
  { symbol := function_name
    func_ptr := function_ptr
    signature := signature
    attachment := none }

/-- `HostFunctionList::new(module_name)`: empty registry; `none` models the
`CString::new(..).unwrap()` panic on an interior NUL in the module name. -/
def HostFunctionList.new (module_name : List Nat) : Option HostFunctionList := do
  let m ← CString.new module_name
  some { module_name := m, host_functions := [], native_symbols := [] }

/-- `HostFunctionList::register_host_function` (lines 81-98 of
`host_function.rs`): encode the signature, wrap signature and name as
`CString`s (each `unwrap()` panic modelled as `none`), push the
`HostFunction`, then push the descriptor packed from the last entry's
buffers. -/
def HostFunctionList.register_host_function (l : HostFunctionList)
    (function_name : List Nat) (function_ptr : Nat)
    (params : List ParamTy) (result : ResultTy) : Option HostFunctionList := do
  let signature ← CString.new (encodeSignature params result)
  let name ← CString.new function_name
  let host_functions := l.host_functions ++
    [{ function_name := name, function_ptr := function_ptr, signature := signature }]
  some { l with
    host_functions := host_functions
    native_symbols := l.native_symbols ++ [pack_host_function name function_ptr signature] }

/-- One registration request: (function name bytes, function pointer,
parameter kinds, result kind). -/
structure RegRequest where
  function_name : List Nat
  function_ptr : Nat
  params : List ParamTy
  result : ResultTy
deriving DecidableEq, Repr

/-- Calling `register_host_function` once per request, in order. -/
def registerAll (l : HostFunctionList) (reqs : List RegRequest) :
    Option HostFunctionList :=
  reqs.foldlM
    (fun acc r => acc.register_host_function r.function_name r.function_ptr r.params r.result) l

/-- The `HostFunction` entry a successful registration of `r` appends. -/
def entryOf (r : RegRequest) : HostFunction :=
  { function_name := r.function_name
    function_ptr := r.function_ptr
    signature := encodeSignature r.params r.result }

/-- The `NativeSymbol` a successful registration of `r` appends. -/
def symbolOf (r : RegRequest) : NativeSymbol :=
  pack_host_function r.function_name r.function_ptr (encodeSignature r.params r.result)

lemma CString.new_no_nul (bytes : List Nat) (h : 0 ∉ bytes) :
    CString.new bytes = some bytes := by
  simp [CString.new, h]

lemma register_eq_some (l : HostFunctionList) (r : RegRequest)
    (hname : 0 ∉ r.function_name) :
    l.register_host_function r.function_name r.function_ptr r.params r.result
      = some { l with
          host_functions := l.host_functions ++ [entryOf r]
          native_symbols := l.native_symbols ++ [symbolOf r] } := by
  unfold HostFunctionList.register_host_function
  rw [CString.new_no_nul _ (encodeSignature_no_nul r.params r.result),
    CString.new_no_nul _ hname]
  rfl

lemma register_isSome_iff (l : HostFunctionList) (function_name : List Nat)
    (function_ptr : Nat) (params : List ParamTy) (result : ResultTy) :
    (l.register_host_function function_name function_ptr params result).isSome
      ↔ 0 ∉ function_name := by
  unfold HostFunctionList.register_host_function
  rw [CString.new_no_nul _ (encodeSignature_no_nul params result)]
  by_cases h : 0 ∈ function_name
  · simp [CString.new, h]
  · simp [CString.new, h, Option.bind]

lemma registerAll_eq_some (reqs : List RegRequest) (l : HostFunctionList) (l2 : HostFunctionList)
    (h : registerAll l reqs = some l2) :
    l2.host_functions = l.host_functions ++ reqs.map entryOf
      ∧ l2.native_symbols = l.native_symbols ++ reqs.map symbolOf := by
  induction reqs generalizing l with
  | nil =>
      have hl : l = l2 := by
        simpa [registerAll] using h
      simp [hl]
  | cons r rs ih =>
      unfold registerAll at h
      rw [List.foldlM_cons] at h
      rcases hstep : l.register_host_function r.function_name r.function_ptr r.params r.result with
        _ | l1
      · rw [hstep] at h
        exact Option.noConfusion h
      · rw [hstep] at h
        have h : registerAll l1 rs = some l2 := h
        have hname : 0 ∉ r.function_name := by
          have : (l.register_host_function r.function_name r.function_ptr r.params r.result).isSome := by
            rw [hstep]; rfl
          exact (register_isSome_iff l r.function_name r.function_ptr r.params r.result).mp this
        have hl1 := register_eq_some l r hname
        rw [hstep] at hl1
        have hl1 := Option.some.inj hl1
        have := ih l1 h
        rw [hl1] at this
        simpa [List.append_assoc] using this

/-- `RuntimeError` (the variant used by `instance.rs`). -/
inductive RuntimeError
  | InstantiationFailure (msg : String)
deriving DecidableEq, Repr

/-- `DEFAULT_ERROR_BUF_SIZE` from `helper.rs`.  Modelled from the spec:
`helper.rs` is not among the provided sources; the spec describes "a
fixed-capacity error buffer" / "a fixed-size buffer", so this is a fixed
positive constant (128 in the crate). -/
def DEFAULT_ERROR_BUF_SIZE : Nat := 128

/-- `error_buf_to_string` from `helper.rs`.  Modelled from the spec:
`helper.rs` is not among the provided sources; the spec says the message is
"the native engine's own diagnostic text truncated to a fixed-size buffer",
i.e. the C-string contents of the buffer up to its first NUL. -/
def error_buf_to_string (buf : List Nat) : String :=
  String.mk ((buf.takeWhile (fun b => b ≠ 0)).map Char.ofNat)

/-- The behaviour of the native engine (`wamr_sys`) during one
`new_with_args` call: whether `wasm_runtime_init_thread_env` succeeds, the
handle `wasm_runtime_instantiate` returns (`0` models the null handle), and
the NUL-terminated diagnostic bytes the engine writes at the start of the
error buffer. -/
structure NativeEnv where
  init_thread_env_ok : Bool
  instantiate_handle : Nat
  instantiate_err : List Nat

/-- The native calls `new_with_args` performs, in order, used to observe that
the failure paths allocate nothing. -/
inductive NativeCall
  | init_thread_env
  | instantiate
  | alloc_context
  | set_user_data
deriving DecidableEq, Repr

/-- `Instance<T>` together with the engine-held user-data slot of its
singleton execution context.  The slot holds the opaque pointer installed by
`Box::into_raw`; `none` models a null pointer, `some v` models a non-null
pointer to a heap cell currently containing `v`. -/
structure InstanceState (T : Type) where
  inst : Nat
  user_data_slot : Option T

/-- `Instance::new_with_args` (lines 47-95 of `instance.rs`), with the trace
of native calls it performed.  Steps follow the source: init the thread
environment (early error on failure); instantiate into a zero-initialized
`DEFAULT_ERROR_BUF_SIZE` array; on a null handle match on `error_buf.len()`
(the array length) for the error message; otherwise box the data and store
the raw pointer in the exec-env singleton's user-data slot. -/
def new_with_args (T : Type) (env : NativeEnv) (stack_size heap_size : Nat)
    (data : T) : Except RuntimeError (InstanceState T) × List NativeCall :=
  if !env.init_thread_env_ok then
    (Except.error (RuntimeError.InstantiationFailure "thread signal env initialized failed"),
      [NativeCall.init_thread_env])
  else
    let error_buf : List Nat := List.replicate DEFAULT_ERROR_BUF_SIZE 0
    let instanceHandle := env.instantiate_handle
    let error_buf := (env.instantiate_err ++ error_buf).take DEFAULT_ERROR_BUF_SIZE
    if instanceHandle = 0 then
      -- the source matches on `error_buf.len()` with arms `0` and `_`
      (if error_buf.length = 0 then
        (Except.error (RuntimeError.InstantiationFailure "instantiation failed"),
          [NativeCall.init_thread_env, NativeCall.instantiate])
      else
        (Except.error (RuntimeError.InstantiationFailure (error_buf_to_string error_buf)),
          [NativeCall.init_thread_env, NativeCall.instantiate]))
    else
      (Except.ok { inst := instanceHandle, user_data_slot := some data },
        [NativeCall.init_thread_env, NativeCall.instantiate,
          NativeCall.alloc_context, NativeCall.set_user_data])

/-- `Instance::new` (lines 36-38 of `instance.rs`): delegates to
`new_with_args` with a host-managed heap size of `0`. -/
def new (T : Type) (env : NativeEnv) (stack_size : Nat) (data : T) :
    Except RuntimeError (InstanceState T) × List NativeCall :=
  new_with_args T env stack_size 0 data

/-- `Instance::data` (lines 101-108): fetches the user-data slot of the
exec-env singleton and dereferences it as `T`.  Dereferencing a null slot is
undefined behaviour in the source; the model returns `none` there. -/
def InstanceState.data {T : Type} (s : InstanceState T) : Option T :=
  s.user_data_slot

/-- A write through the `&mut T` returned by `Instance::data_mut`
(lines 110-117): the single heap cell behind the stored pointer is updated in
place, so the instance's slot now holds the new value. -/
def InstanceState.data_mut_write {T : Type} (s : InstanceState T) (f : T → T) :
    InstanceState T :=
  { s with user_data_slot := s.user_data_slot.map f }

/-- The three teardown actions of `impl Drop for Instance`. -/
inductive TeardownStep
  | reclaim_context
  | destroy_thread_env
  | deinstantiate
deriving DecidableEq, Repr

/-- `drop` (lines 120-135 of `instance.rs`) as the ordered trace of teardown
actions it performs: fetch the user-data pointer; if non-null, rebuild the
`Box` and drop it (reclaim); then destroy the thread environment; then
deinstantiate.  The function is total: teardown never returns or raises an
error. -/
def dropInstance {T : Type} (s : InstanceState T) : List TeardownStep :=
  (if s.user_data_slot.isSome then [TeardownStep.reclaim_context] else [])
    ++ [TeardownStep.destroy_thread_env, TeardownStep.deinstantiate]

/-- Concrete registry inputs used by the C3 witness. -/
def reqsW : List RegRequest :=
  [ { function_name := [97], function_ptr := 7, params := [ParamTy.Buffer],
      result := ResultTy.I32 },
    { function_name := [98], function_ptr := 9, params := [], result := ResultTy.Void } ]

/-- The fresh registry for module name "m". -/
def l0W : HostFunctionList :=
  { module_name := [109], host_functions := [], native_symbols := [] }

/-- The registry after registering both requests of `reqsW`. -/
def lW : HostFunctionList :=
  { module_name := [109]
    host_functions :=
      [ { function_name := [97], function_ptr := 7, signature := [42, 126, 105] },
        { function_name := [98], function_ptr := 9, signature := [] } ]
    native_symbols :=
      [ { symbol := [97], func_ptr := 7, signature := [42, 126, 105], attachment := none },
        { symbol := [98], func_ptr := 9, signature := [], attachment := none } ] }

lemma HostFunctionList.new_elim (module_name : List Nat) (l0 : HostFunctionList)
    (h : HostFunctionList.new module_name = some l0) :
    l0.host_functions = [] ∧ l0.native_symbols = [] := by
  unfold HostFunctionList.new at h
  rcases hm : CString.new module_name with _ | m
  · rw [hm] at h
    exact Option.noConfusion h
  · rw [hm] at h
    have h : some ({ module_name := m, host_functions := [], native_symbols := [] }
        : HostFunctionList) = some l0 := h
    have h := Option.some.inj h
    rw [h.symm]
    exact ⟨rfl, rfl⟩

lemma error_buf_length (err : List Nat) :
    ((err ++ List.replicate DEFAULT_ERROR_BUF_SIZE (0 : Nat)).take
        DEFAULT_ERROR_BUF_SIZE).length = DEFAULT_ERROR_BUF_SIZE := by
  simp only [List.length_take, List.length_append, List.length_replicate]
  omega

lemma new_with_args_ok (T : Type) (env : NativeEnv) (stack_size heap_size : Nat)
    (data : T) (s : InstanceState T) (calls : List NativeCall)
    (h : new_with_args T env stack_size heap_size data = (Except.ok s, calls)) :
    s = { inst := env.instantiate_handle, user_data_slot := some data }
      ∧ env.init_thread_env_ok = true ∧ env.instantiate_handle ≠ 0 := by
  rcases env with ⟨ok, handle, err⟩
  cases ok with
  | false => simp [new_with_args, Prod.ext_iff] at h
  | true =>
      by_cases hh : handle = 0
      · subst hh
        simp [new_with_args, error_buf_length, DEFAULT_ERROR_BUF_SIZE, Prod.ext_iff] at h
      · simp only [new_with_args, Bool.not_true, Bool.false_eq_true, if_false,
          if_neg hh, Prod.mk.injEq] at h
        obtain ⟨hs, _⟩ := h
        have hs := (Except.ok.inj hs)
        exact ⟨hs.symm, rfl, hh⟩

/-- C1: for every ordered sequence of `ParamTy` values and every `ResultTy`,
`encodeSignature` (the signature built by `register_host_function`) is
exactly the concatenation, in declaration order, of each parameter's table
encoding followed by the result's table encoding; `Buffer` contributes
exactly two bytes and `Void` contributes zero bytes.  Determinism and
totality hold by construction: the encoder is a total function. -/
theorem encode_signature_matches_table (params : List ParamTy) (result : ResultTy) :
    encodeSignature params result
        = (params.map paramTableSpec).flatten ++ resultTableSpec result
      ∧ (∀ str : List Nat, (ParamTy.Buffer.encode str).length = str.length + 2)
      ∧ (∀ str : List Nat, ResultTy.Void.encode str = str) := by
  refine ⟨encodeSignature_eq params result, ?_, ?_⟩
  · intro str
    simp [ParamTy.encode]
  · intro str
    rfl

/-- C8 counterexample: registering a function whose name is the one-byte
string containing a NUL makes `register_host_function` panic (the
`CString::new(function_name).unwrap()` of line 90, modelled as `none`), so
registration is not total over every name string. -/
theorem register_nul_name_panics :
    HostFunctionList.register_host_function
        { module_name := [109], host_functions := [], native_symbols := [] }
        [0] 5 [] ResultTy.Void = none := by
  decide

/-- C8 (amended): for every function name string without an interior NUL
byte, every function pointer, parameter-kind sequence, and result kind,
`register_host_function` completes without raising any error or panicking. -/
theorem register_total_without_nul (l : HostFunctionList) (function_name : List Nat)
    (function_ptr : Nat) (params : List ParamTy) (result : ResultTy)
    (h : 0 ∉ function_name) :
    (l.register_host_function function_name function_ptr params result).isSome := by
  rw [register_isSome_iff]
  exact h

/-- Witness for C8 (amended): registering the name "a" with one buffer
parameter succeeds. -/
theorem register_total_without_nul_witness :
    (HostFunctionList.register_host_function
        { module_name := [109], host_functions := [], native_symbols := [] }
        [97] 5 [ParamTy.Buffer] ResultTy.I32).isSome :=
  register_total_without_nul
    { module_name := [109], host_functions := [], native_symbols := [] }
    [97] 5 [ParamTy.Buffer] ResultTy.I32 (by decide)

/-- C9: `Instance::new` is exactly `Instance::new_with_args` with a
host-managed heap size of zero, for every engine behaviour, stack size and
context value. -/
theorem new_is_new_with_args_zero_heap (T : Type) (env : NativeEnv)
    (stack_size : Nat) (data : T) :
    new T env stack_size data = new_with_args T env stack_size 0 data := rfl

/-- C10: every encoded signature byte is one of `i I f F $ * ~`, in
particular never NUL, so the `CString` built from the signature inside
`register_host_function` always succeeds; the only panic source in
registration is a caller-supplied name containing an interior NUL. -/
theorem signature_no_nul_only_name_panics (params : List ParamTy) (result : ResultTy)
    (l : HostFunctionList) (function_name : List Nat) (function_ptr : Nat) :
    (∀ b ∈ encodeSignature params result, b ∈ [105, 73, 102, 70, 36, 42, 126])
      ∧ 0 ∉ encodeSignature params result
      ∧ (CString.new (encodeSignature params result)).isSome
      ∧ (l.register_host_function function_name function_ptr params result = none
          ↔ 0 ∈ function_name) := by
  refine ⟨encodeSignature_mem params result, encodeSignature_no_nul params result, ?_, ?_⟩
  · rw [CString.new_no_nul _ (encodeSignature_no_nul params result)]
    rfl
  · rw [← Option.not_isSome_iff_eq_none, register_isSome_iff]
    exact not_not

/-- C3: after `register_host_function` has been called once per request on a
fresh `HostFunctionList`, both sequences have one element per request, and at
every index the descriptor's symbol and signature are the pointed-to buffers
of the same-index entry, its function pointer is the i-th registered pointer,
and its attachment is null; registration order is preserved. -/
theorem registry_order_sync (module_name : List Nat) (reqs : List RegRequest)
    (l0 l : HostFunctionList)
    (h0 : HostFunctionList.new module_name = some l0)
    (h : registerAll l0 reqs = some l) :
    l.host_functions.length = reqs.length
      ∧ l.native_symbols.length = reqs.length
      ∧ ∀ i : Nat, i < reqs.length →
          l.native_symbols[i]?.map NativeSymbol.symbol
              = l.host_functions[i]?.map HostFunction.function_name
            ∧ l.native_symbols[i]?.map NativeSymbol.signature
              = l.host_functions[i]?.map HostFunction.signature
            ∧ l.native_symbols[i]?.map NativeSymbol.func_ptr
              = reqs[i]?.map RegRequest.function_ptr
            ∧ l.native_symbols[i]?.map NativeSymbol.attachment = some none := by
  obtain ⟨h0f, h0n⟩ := HostFunctionList.new_elim module_name l0 h0
  obtain ⟨hf, hn⟩ := registerAll_eq_some reqs l0 l h
  rw [h0f, List.nil_append] at hf
  rw [h0n, List.nil_append] at hn
  refine ⟨by rw [hf, List.length_map], by rw [hn, List.length_map], ?_⟩
  intro i hi
  have hr : reqs[i]? = some reqs[i] := List.getElem?_eq_getElem hi
  rw [hf, hn]
  simp [List.getElem?_map, hr, entryOf, symbolOf, pack_host_function]

/-- Witness for C3: the synchronization holds on a concrete two-request
registry. -/
theorem registry_order_sync_witness :
    lW.host_functions.length = reqsW.length
      ∧ lW.native_symbols.length = reqsW.length
      ∧ ∀ i : Nat, i < reqsW.length →
          lW.native_symbols[i]?.map NativeSymbol.symbol
              = lW.host_functions[i]?.map HostFunction.function_name
            ∧ lW.native_symbols[i]?.map NativeSymbol.signature
              = lW.host_functions[i]?.map HostFunction.signature
            ∧ lW.native_symbols[i]?.map NativeSymbol.func_ptr
              = reqsW[i]?.map RegRequest.function_ptr
            ∧ lW.native_symbols[i]?.map NativeSymbol.attachment = some none :=
  registry_order_sync [109] reqsW l0W lW (by decide) (by decide)

set_option maxRecDepth 4096 in
/-- C2 (code-path evaluation): when the engine returns a null handle and
writes no diagnostic text, `new_with_args` returns
`InstantiationFailure("")`, not the generic `"instantiation failed"`: the
`0` arm of the match is on the fixed-size array length
(`DEFAULT_ERROR_BUF_SIZE`, never `0`), so it is unreachable. -/
theorem instantiate_null_empty_text_message :
    (new_with_args Nat
        { init_thread_env_ok := true, instantiate_handle := 0, instantiate_err := [] }
        1024 0 0).1
      = Except.error (RuntimeError.InstantiationFailure "")
      ∧ ("" : String) ≠ "instantiation failed" := by
  constructor
  · rfl
  · decide

/-- C4: every instance produced by a successful `new_with_args` tears down in
the fixed order: reclaim the attached context, then destroy the thread
environment, then deinstantiate the native handle; reclamation precedes both
native destruction calls. -/
theorem teardown_order (T : Type) (env : NativeEnv) (stack_size heap_size : Nat)
    (data : T) (s : InstanceState T) (calls : List NativeCall)
    (h : new_with_args T env stack_size heap_size data = (Except.ok s, calls)) :
    dropInstance s = [TeardownStep.reclaim_context, TeardownStep.destroy_thread_env,
      TeardownStep.deinstantiate] := by
  obtain ⟨hs, _, _⟩ := new_with_args_ok T env stack_size heap_size data s calls h
  rw [hs]
  rfl

/-- Witness for C4: a concrete successful instantiation tears down in the
fixed three-step order. -/
theorem teardown_order_witness :
    dropInstance { inst := 1, user_data_slot := some (7 : Nat) }
      = [TeardownStep.reclaim_context, TeardownStep.destroy_thread_env,
          TeardownStep.deinstantiate] :=
  teardown_order Nat
    { init_thread_env_ok := true, instantiate_handle := 1, instantiate_err := [] }
    1024 0 7 { inst := 1, user_data_slot := some 7 }
    [NativeCall.init_thread_env, NativeCall.instantiate,
      NativeCall.alloc_context, NativeCall.set_user_data] (by rfl)

/-- C5: the context installed at instantiation reads back unchanged through
`data()`, and a mutation made through the reference returned by `data_mut()`
is visible on every subsequent read of the same instance (the reads all go
through the single stored allocation). -/
theorem data_round_trip (T : Type) (env : NativeEnv) (stack_size heap_size : Nat)
    (data : T) (s : InstanceState T) (calls : List NativeCall)
    (h : new_with_args T env stack_size heap_size data = (Except.ok s, calls)) :
    s.data = some data
      ∧ ∀ f : T → T, (s.data_mut_write f).data = s.data.map f := by
  obtain ⟨hs, _, _⟩ := new_with_args_ok T env stack_size heap_size data s calls h
  rw [hs]
  exact ⟨rfl, fun f => rfl⟩

/-- Witness for C5: installing `7` reads back as `7`, and writes through
`data_mut` are visible on later reads. -/
theorem data_round_trip_witness :
    InstanceState.data { inst := 1, user_data_slot := some (7 : Nat) } = some 7
      ∧ ∀ f : Nat → Nat,
          (InstanceState.data_mut_write { inst := 1, user_data_slot := some 7 } f).data
            = (InstanceState.data { inst := 1, user_data_slot := some 7 }).map f :=
  data_round_trip Nat
    { init_thread_env_ok := true, instantiate_handle := 1, instantiate_err := [] }
    1024 0 7 { inst := 1, user_data_slot := some 7 }
    [NativeCall.init_thread_env, NativeCall.instantiate,
      NativeCall.alloc_context, NativeCall.set_user_data] (by rfl)

/-- C6: dropping an instance whose stored user-data pointer is null skips
context reclamation silently and still destroys the thread environment and
deinstantiates, in that order; `dropInstance` is a total function, so
teardown never returns or raises an error. -/
theorem teardown_null_skips_reclaim (T : Type) (s : InstanceState T)
    (h : s.user_data_slot = none) :
    dropInstance s = [TeardownStep.destroy_thread_env, TeardownStep.deinstantiate]
      ∧ TeardownStep.reclaim_context ∉ dropInstance s := by
  constructor
  · simp [dropInstance, h]
  · simp [dropInstance, h]

/-- Witness for C6: a concrete instance with a null user-data slot. -/
theorem teardown_null_skips_reclaim_witness :
    dropInstance { inst := 1, user_data_slot := (none : Option Nat) }
        = [TeardownStep.destroy_thread_env, TeardownStep.deinstantiate]
      ∧ TeardownStep.reclaim_context
          ∉ dropInstance { inst := 1, user_data_slot := (none : Option Nat) } :=
  teardown_null_skips_reclaim Nat { inst := 1, user_data_slot := none } rfl

/-- C7: when thread-environment initialization reports failure,
`new_with_args` returns `InstantiationFailure("thread signal env initialized
failed")` having performed only the init call: no instantiation, no context
allocation, and no user-data installation happen on this path. -/
theorem thread_env_init_failure (T : Type) (env : NativeEnv)
    (stack_size heap_size : Nat) (data : T)
    (h : env.init_thread_env_ok = false) :
    new_with_args T env stack_size heap_size data
        = (Except.error
             (RuntimeError.InstantiationFailure "thread signal env initialized failed"),
           [NativeCall.init_thread_env])
      ∧ NativeCall.instantiate ∉ (new_with_args T env stack_size heap_size data).2
      ∧ NativeCall.alloc_context ∉ (new_with_args T env stack_size heap_size data).2
      ∧ NativeCall.set_user_data ∉ (new_with_args T env stack_size heap_size data).2 := by
  have heq : new_with_args T env stack_size heap_size data
      = (Except.error
           (RuntimeError.InstantiationFailure "thread signal env initialized failed"),
         [NativeCall.init_thread_env]) := by
    simp [new_with_args, h]
  refine ⟨heq, ?_, ?_, ?_⟩ <;> rw [heq] <;> simp

/-- Witness for C7: a concrete engine whose thread-env init fails. -/
theorem thread_env_init_failure_witness :
    new_with_args Nat
        { init_thread_env_ok := false, instantiate_handle := 1, instantiate_err := [] }
        1024 0 0
        = (Except.error
             (RuntimeError.InstantiationFailure "thread signal env initialized failed"),
           [NativeCall.init_thread_env])
      ∧ NativeCall.instantiate
          ∉ (new_with_args Nat
              { init_thread_env_ok := false, instantiate_handle := 1, instantiate_err := [] }
              1024 0 0).2
      ∧ NativeCall.alloc_context
          ∉ (new_with_args Nat
              { init_thread_env_ok := false, instantiate_handle := 1, instantiate_err := [] }
              1024 0 0).2
      ∧ NativeCall.set_user_data
          ∉ (new_with_args Nat
              { init_thread_env_ok := false, instantiate_handle := 1, instantiate_err := [] }
              1024 0 0).2 :=
  thread_env_init_failure Nat
    { init_thread_env_ok := false, instantiate_handle := 1, instantiate_err := [] }
    1024 0 0 rfl

end Wamr
